import Mathlib

/-!
# Verification of the fraud-case extraction and consolidation pipeline

Shallow embedding of the core of the `companies` repository:
`src/scrapers/pdf_extractor.py` (pattern extraction, amount parsing,
jurisdiction normalization, fraud classification, record building) and
`src/combine_all_sources.py` (record building from extracted cases and
company-name deduplication).

Conventions of the embedding:
* Python `str` is modelled by Lean `String` / `List Char`.  The data handled
  by this pipeline is ASCII, and `str.lower` / `str.strip` are modelled by
  their ASCII restrictions.
* Python `float` is modelled by `ℚ`.  Every numeric constant appearing in
  the statements below (50000, 4.5, 10^6, 10^9, ...) is exactly
  representable as an IEEE-754 double, so no rounding behaviour is lost on
  the inputs considered.
* Fallible Python operations (`float(...)`, `int(...)`,
  `datetime.strptime`) are modelled as `Except Unit _` values; the
  `try/except` handlers of the source become `match` on those values.
* `datetime.now().strftime("%Y-%m-%d")` is modelled by an explicit `today`
  parameter, making the source's hidden dependence on the clock visible.
* `re.findall` with flags `re.IGNORECASE | re.MULTILINE` is modelled by a
  fuel-based backtracking matcher over a regex AST; each pattern of
  `PDFExtractor.PATTERNS` is transcribed into that AST below.
-/

namespace Companies

/-! ## Python string primitives -/

/-- The whitespace characters stripped by `str.strip()` (ASCII fragment). -/
def pyIsSpace (c : Char) : Bool :=
  c = ' ' || c = '\t' || c = '\n' || c = '\x0d' || c = '\x0b' || c = '\x0c'

/-- `str.lower()` on a single character (ASCII fragment). -/
def pyLowerChar (c : Char) : Char := c.toLower

/-- `str.lower()` (ASCII fragment; all data in scope is ASCII). -/
def pyLower (s : String) : String := String.mk (s.data.map pyLowerChar)

/-- `str.strip()` on a character list. -/
def pyStripL (l : List Char) : List Char :=
  ((l.dropWhile pyIsSpace).reverse.dropWhile pyIsSpace).reverse

/-- `str.strip()`. -/
def pyStrip (s : String) : String := String.mk (pyStripL s.data)

/-- `s.replace(c, "")`: remove every occurrence of a character. -/
def pyRemoveChar (c : Char) (s : String) : String :=
  String.mk (s.data.filter (fun d => d ≠ c))

/-- Does `needle` occur as a contiguous substring of `hay`?  Models the
Python expression `needle in hay` on strings. -/
def containsSubL : List Char → List Char → Bool
  | _, [] => true
  | [], _ :: _ => false
  | c :: cs, needle => (needle.isPrefixOf (c :: cs)) || containsSubL cs needle

/-- `needle in hay` for `String`. -/
def pyContains (hay needle : String) : Bool := containsSubL hay.data needle.data

/-- `sep.join(parts)`. -/
def pyJoin (sep : String) : List String → String
  | [] => ""
  | [x] => x
  | x :: xs => x ++ sep ++ pyJoin sep xs

/-- `s[:n]` on strings. -/
def pyTake (n : Nat) (s : String) : String := String.mk (s.data.take n)

/-! ## Python numeric literal parsing

`pyInt` models `int(s)` and `pyFloat` models `float(s)` on finite decimal
literals (an optional sign, digits, an optional fraction and an optional
exponent, surrounded by optional whitespace).  The special forms
`inf`/`nan` and underscore digit separators accepted by CPython cannot
denote the dollar amounts and investor counts this pipeline feeds in, and
are not modelled.

A parsed value is kept as an exact decimal `PyFloat` (an integer numerator
over a power-of-ten denominator) so that every arithmetic step of the
pipeline is kernel-computable; `PyFloat.toQ` interprets it in `ℚ`.  Every
constant this pipeline handles in the claims (50000, 4.5, 10⁶, 10⁹, ...)
is exactly representable as an IEEE-754 double, and the pipeline's only
operations — parsing, multiplication by 10⁶/10⁹, order comparison and
`max` — are exact on doubles at these magnitudes, so the exact-decimal
model coincides with Python `float` on everything in scope. -/

/-- An exact decimal number: `num / 10 ^ scale`. -/
structure PyFloat where
  num : Int
  scale : Nat
  deriving Repr, DecidableEq

/-- Interpretation in `ℚ`. -/
def PyFloat.toQ (x : PyFloat) : ℚ := (x.num : ℚ) / 10 ^ x.scale

/-- Strict order (`a < b`), by cross multiplication. -/
def PyFloat.blt (a b : PyFloat) : Bool :=
  a.num * 10 ^ b.scale < b.num * 10 ^ a.scale

/-- `float` of a natural number. -/
def PyFloat.ofNat (n : Nat) : PyFloat := ⟨n, 0⟩

/-- Multiplication by an integer constant (`value *= 1_000_000`). -/
def PyFloat.mulInt (a : PyFloat) (m : Int) : PyFloat := ⟨a.num * m, a.scale⟩

/-- Python's binary `max` (the left operand wins ties, as in `max`'s
scan over a list). -/
def PyFloat.pyMax (a b : PyFloat) : PyFloat := if a.blt b then b else a


/-- Value of a digit character. -/
def digitVal (c : Char) : Nat := c.toNat - '0'.toNat

/-- Natural number denoted by a digit list (most significant first). -/
def digitsToNat (l : List Char) : Nat :=
  l.foldl (fun acc c => acc * 10 + digitVal c) 0

/-- `int(s)`: optional sign then one or more digits.  Raises (returns
`.error`) otherwise. -/
def pyInt (s : String) : Except Unit Int :=
  let l := pyStripL s.data
  let (sign, rest) :=
    match l with
    | '-' :: r => ((-1 : Int), r)
    | '+' :: r => ((1 : Int), r)
    | r => ((1 : Int), r)
  if rest ≠ [] ∧ rest.all Char.isDigit then
    .ok (sign * (digitsToNat rest : Int))
  else .error ()

/-- Build the value `sign · (I + F/10^k) · 10^E` as an exact decimal,
where `I`/`F` are the integer and fraction digit blocks and `k` the
fraction length. -/
def mkPyFloat (sign : Int) (intPart fracPart : List Char) (expVal : Int) : PyFloat :=
  let base : Int := sign * ((digitsToNat intPart : Int) * 10 ^ fracPart.length +
    (digitsToNat fracPart : Int))
  if 0 ≤ expVal then ⟨base * 10 ^ expVal.toNat, fracPart.length⟩
  else ⟨base, fracPart.length + (-expVal).toNat⟩

/-- `float(s)` on finite decimal literals, as an exact decimal. -/
def pyFloat (s : String) : Except Unit PyFloat :=
  let l := pyStripL s.data
  let (sign, rest) :=
    match l with
    | '-' :: r => ((-1 : Int), r)
    | '+' :: r => ((1 : Int), r)
    | r => ((1 : Int), r)
  -- mantissa: digits [ '.' digits ] | '.' digits   (at least one digit)
  let intPart := rest.takeWhile Char.isDigit
  let afterInt := rest.dropWhile Char.isDigit
  let (fracPart, afterFrac) :=
    match afterInt with
    | '.' :: r => (r.takeWhile Char.isDigit, r.dropWhile Char.isDigit)
    | r => ([], r)
  if intPart = [] ∧ fracPart = [] then .error ()
  else
    -- optional exponent: (e|E) [sign] digits
    match afterFrac with
    | [] => .ok (mkPyFloat sign intPart fracPart 0)
    | e :: r =>
      if (e = 'e' ∨ e = 'E') then
        let (esign, edigs) :=
          match r with
          | '-' :: r' => ((-1 : Int), r')
          | '+' :: r' => ((1 : Int), r')
          | r' => ((1 : Int), r')
        if edigs ≠ [] ∧ edigs.all Char.isDigit then
          .ok (mkPyFloat sign intPart fracPart (esign * (digitsToNat edigs : Int)))
        else .error ()
      else
        -- trailing garbage after the mantissa: ValueError
        .error ()

/-! ## Regular expressions

A small regex AST covering exactly the constructs used by
`PDFExtractor.PATTERNS`, together with a backtracking matcher that
reproduces Python `re` semantics for them: leftmost match, greedy and lazy
quantifiers, ordered alternation, one capturing group per pattern, the
`re.IGNORECASE` flag (every pattern is compiled with
`re.IGNORECASE | re.MULTILINE`), and `$` under `re.MULTILINE`.
Counted repetitions `r{m,n}` are desugared into concatenations of optional
parts, which preserves the backtracking order (most repetitions first). -/

/-- One item of a character class `[...]`. -/
inductive ClsItem where
  | rng (lo hi : Char)
  | one (c : Char)
  | digit
  | space
  | word
  deriving Repr, DecidableEq

/-- `\s` of Python `re` (ASCII fragment). -/
def reIsSpace (c : Char) : Bool :=
  c = ' ' || c = '\t' || c = '\n' || c = '\x0d' || c = '\x0b' || c = '\x0c'

/-- `\w` of Python `re` (ASCII fragment). -/
def reIsWord (c : Char) : Bool :=
  c.isAlpha || c.isDigit || c = '_'

/-- Does a class item match a character (without case folding)? -/
def clsItemMatch (c : Char) : ClsItem → Bool
  | .rng lo hi => lo ≤ c ∧ c ≤ hi
  | .one d => c = d
  | .digit => c.isDigit
  | .space => reIsSpace c
  | .word => reIsWord c

/-- Single-character matchers. -/
inductive RCls where
  | lit (c : Char)                       -- a literal character
  | digit                                -- \d
  | space                                -- \s
  | word                                 -- \w
  | anyCh                                -- . (matches anything but newline)
  | cls (neg : Bool) (items : List ClsItem)  -- [...] or [^...]
  deriving Repr, DecidableEq

/-- Case flip used to implement `re.IGNORECASE` (ASCII). -/
def flipCase (c : Char) : Char :=
  if c.isUpper then c.toLower else if c.isLower then c.toUpper else c

/-- Does a single-character matcher accept `c`, under `re.IGNORECASE`? -/
def rclsMatch (r : RCls) (c : Char) : Bool :=
  let base : Char → Bool := fun d =>
    match r with
    | .lit l => d = l
    | .digit => d.isDigit
    | .space => reIsSpace d
    | .word => reIsWord d
    | .anyCh => d ≠ '\n'
    | .cls _ items => items.any (clsItemMatch d)
  match r with
  | .cls neg _ => neg ≠ (base c || base (flipCase c))
  | _ => base c || base (flipCase c)

/-- Regex AST.  `star lzy r`: `r*` (`lzy = true` for `r*?`); `group` is the
single capturing group of a pattern; `endml` is `$` under `re.MULTILINE`. -/
inductive Regex where
  | eps
  | ch (r : RCls)
  | cat (a b : Regex)
  | alt (a b : Regex)
  | opt (r : Regex)
  | star (lzy : Bool) (r : Regex)
  | group (r : Regex)
  | endml
  deriving Repr

/-- A continuation receives the remaining input and the capture so far. -/
abbrev MCont := List Char → Option (List Char) → Option (List Char × Option (List Char))

/-- Backtracking matcher in continuation-passing style.  The `Nat` fuel
strictly decreases at every recursive call; with enough fuel the function
implements Python `re` backtracking: alternation tries the left branch
first, `opt`/greedy `star` try consuming first, lazy `star` tries the
continuation first, and an iteration of `star` that consumes nothing is
abandoned (Python never repeats an empty match). -/
def mtch : Nat → Regex → List Char → Option (List Char) → MCont →
    Option (List Char × Option (List Char))
  | 0, _, _, _, _ => none
  | _ + 1, .eps, s, cap, k => k s cap
  | _ + 1, .ch r, s, cap, k =>
    match s with
    | [] => none
    | c :: rest => if rclsMatch r c then k rest cap else none
  | fuel + 1, .cat a b, s, cap, k =>
    mtch fuel a s cap (fun s' cap' => mtch fuel b s' cap' k)
  | fuel + 1, .alt a b, s, cap, k =>
    match mtch fuel a s cap k with
    | some res => some res
    | none => mtch fuel b s cap k
  | fuel + 1, .opt r, s, cap, k =>
    match mtch fuel r s cap k with
    | some res => some res
    | none => k s cap
  | fuel + 1, .star lzy r, s, cap, k =>
    if lzy then
      match k s cap with
      | some res => some res
      | none =>
        mtch fuel r s cap (fun s' cap' =>
          if s'.length = s.length then none
          else mtch fuel (.star true r) s' cap' k)
    else
      match mtch fuel r s cap (fun s' cap' =>
          if s'.length = s.length then none
          else mtch fuel (.star false r) s' cap' k) with
      | some res => some res
      | none => k s cap
  | fuel + 1, .group r, s, cap, k =>
    mtch fuel r s cap (fun s' _ => k s' (some (s.take (s.length - s'.length))))
  | _ + 1, .endml, s, cap, k =>
    match s with
    | [] => k s cap
    | c :: _ => if c = '\n' then k s cap else none

/-- Size of a regex, used to compute a sufficient fuel bound. -/
def regexSize : Regex → Nat
  | .eps => 1
  | .ch _ => 1
  | .cat a b => regexSize a + regexSize b + 1
  | .alt a b => regexSize a + regexSize b + 1
  | .opt r => regexSize r + 1
  | .star _ r => regexSize r + 1
  | .group r => regexSize r + 1
  | .endml => 1

/-- Try to match `r` at the start of `s`; returns the length of the match
and the text of the capturing group. -/
def tryMatchAt (r : Regex) (s : List Char) : Option (Nat × Option (List Char)) :=
  let fuel := (regexSize r + 2) * (s.length + 2) * 4 + 100
  match mtch fuel r s none (fun s' cap => some (s', cap)) with
  | some (s', cap) => some (s.length - s'.length, cap)
  | none => none

/-- `re.findall(pattern, text)` for a single-group pattern: scan left to
right, at each failed position advance one character, after a match resume
at its end (one character further for an empty match), and collect the
capturing group of each match. -/
def findAllAux : Nat → Regex → List Char → List (List Char)
  | 0, _, _ => []
  | n + 1, r, s =>
    match tryMatchAt r s with
    | some (len, cap) =>
      (cap.getD []) ::
        (match s with
         | [] => []
         | _ :: _ => findAllAux n r (s.drop (max len 1)))
    | none =>
      match s with
      | [] => []
      | _ :: rest => findAllAux n r rest

/-- `re.findall(pattern, text, re.IGNORECASE | re.MULTILINE)`. -/
def findAll (r : Regex) (text : String) : List String :=
  (findAllAux (text.data.length + 1) r text.data).map String.mk

/-! ### Regex construction helpers -/

/-- Concatenation of a list of regexes. -/
def rcat : List Regex → Regex
  | [] => .eps
  | [r] => r
  | r :: rs => .cat r (rcat rs)

/-- Literal string. -/
def rlit (s : String) : Regex := rcat (s.data.map (fun c => .ch (.lit c)))

/-- Ordered alternation of a list of regexes (left branch preferred). -/
def ralt : List Regex → Regex
  | [] => .eps
  | [r] => r
  | r :: rs => .alt r (ralt rs)

/-- `\d`. -/
def rd : Regex := .ch .digit
/-- `\s`. -/
def rs : Regex := .ch .space
/-- `\w`. -/
def rw : Regex := .ch .word
/-- `.`. -/
def rdot : Regex := .ch .anyCh
/-- `[items]`. -/
def rcls (items : List ClsItem) : Regex := .ch (.cls false items)
/-- `[^items]`. -/
def rncls (items : List ClsItem) : Regex := .ch (.cls true items)
/-- `r+`. -/
def rplus (r : Regex) : Regex := .cat r (.star false r)
/-- `r+?`. -/
def rplusLazy (r : Regex) : Regex := .cat r (.star true r)
/-- `r*`. -/
def rstar (r : Regex) : Regex := .star false r
/-- `r?`. -/
def ropt (r : Regex) : Regex := .opt r
/-- `r{n}` (exactly n). -/
def rrep (n : Nat) (r : Regex) : Regex := rcat (List.replicate n r)
/-- `r{0,n}` greedy: most repetitions tried first. -/
def rupto : Nat → Regex → Regex
  | 0, _ => .eps
  | n + 1, r => .opt (.cat r (rupto n r))
/-- `r{m,n}` greedy. -/
def rrange (m n : Nat) (r : Regex) : Regex := .cat (rrep m r) (rupto (n - m) r)

/-! ## The pattern tables of `PDFExtractor.PATTERNS`

Each Python raw-string pattern is transcribed into the `Regex` AST.
Comments quote the original pattern. -/

/-- `[:\s]`. -/
def clsColonSpace : Regex := rcls [.one ':', .space]
/-- `[:\s#]`. -/
def clsColonSpaceHash : Regex := rcls [.one ':', .space, .one '#']
/-- `[:-]`. -/
def clsColonDash : Regex := rcls [.one ':', .one '-']
/-- `[,\s]`. -/
def clsCommaSpace : Regex := rcls [.one ',', .space]

/-- `(\d{1,2}[:-]\w{2,4}[:-]\d+)`, the capture of the case-number patterns. -/
def caseNumCore : Regex :=
  .group (rcat [rrange 1 2 rd, clsColonDash, rrange 2 4 rw, clsColonDash, rplus rd])

/-- `"case_number"` patterns. -/
def caseNumberPatterns : List Regex :=
  [ -- r"Case\s+(?:No\.?|Number)[:\s]*(\d{1,2}[:-]\w{2,4}[:-]\d+)"
    rcat [rlit "Case", rplus rs,
          ralt [rcat [rlit "No", ropt (rlit ".")], rlit "Number"],
          rstar clsColonSpace, caseNumCore],
    -- r"Civil Action No\.?\s*(\d{1,2}[:-]\w{2,4}[:-]\d+)"
    rcat [rlit "Civil Action No", ropt (rlit "."), rstar rs, caseNumCore],
    -- r"(\d{1,2}[:-]cv[:-]\d+)"
    .group (rcat [rrange 1 2 rd, clsColonDash, rlit "cv", clsColonDash, rplus rd]) ]

/-- `(\w+\s+\d{1,2},?\s+\d{4})`, the capture of the date patterns. -/
def dateCore : Regex :=
  .group (rcat [rplus rw, rplus rs, rrange 1 2 rd, ropt (rlit ","), rplus rs, rrep 4 rd])

/-- `"complaint_date"` patterns. -/
def complaintDatePatterns : List Regex :=
  [ -- r"(?:Filed|Dated)[:\s]*(\w+\s+\d{1,2},?\s+\d{4})"
    rcat [ralt [rlit "Filed", rlit "Dated"], rstar clsColonSpace, dateCore],
    -- r"(\w+\s+\d{1,2},?\s+\d{4})"
    dateCore ]

/-- `"court"` patterns. -/
def courtPatterns : List Regex :=
  [ -- r"UNITED STATES DISTRICT COURT\s+(?:FOR THE\s+)?(.+?)(?:\n|$)"
    rcat [rlit "UNITED STATES DISTRICT COURT", rplus rs,
          ropt (rcat [rlit "FOR THE", rplus rs]),
          .group (rplusLazy rdot), ralt [rlit "\n", .endml]],
    -- r"IN THE UNITED STATES DISTRICT COURT\s+(.+?)(?:\n|$)"
    rcat [rlit "IN THE UNITED STATES DISTRICT COURT", rplus rs,
          .group (rplusLazy rdot), ralt [rlit "\n", .endml]] ]

/-- `[A-Za-z0-9\s,\.&]`. -/
def clsCompanyName : Regex :=
  rcls [.rng 'A' 'Z', .rng 'a' 'z', .rng '0' '9', .space, .one ',', .one '.', .one '&']

/-- `(?:Inc\.|LLC|Ltd\.|Corp\.|Corporation|LP|LLP|PTE|SA|AG|BV|GmbH)`. -/
def companySuffixAlt : Regex :=
  ralt [rlit "Inc.", rlit "LLC", rlit "Ltd.", rlit "Corp.", rlit "Corporation",
        rlit "LP", rlit "LLP", rlit "PTE", rlit "SA", rlit "AG", rlit "BV", rlit "GmbH"]

/-- `([A-Z][A-Za-z0-9\s,\.&]+(?:Inc\.|LLC|...))`, the company capture. -/
def companyCore : Regex :=
  .group (rcat [rcls [.rng 'A' 'Z'], rplus clsCompanyName, companySuffixAlt])

/-- `"defendant_company"` patterns. -/
def defendantCompanyPatterns : List Regex :=
  [ -- r"Defendant[s]?[:\s]+([A-Z][A-Za-z0-9\s,\.&]+(?:Inc\.|...))"
    rcat [rlit "Defendant", ropt (rcls [.one 's']), rplus clsColonSpace, companyCore],
    -- r"([A-Z][A-Za-z0-9\s,\.&]+(?:Inc\.|...))[,\s]+(?:a |an )?(?:Delaware|...|Cayman)"
    rcat [companyCore, rplus clsCommaSpace, ropt (ralt [rlit "a ", rlit "an "]),
          ralt [rlit "Delaware", rlit "Nevada", rlit "Wyoming", rlit "California",
                rlit "New York", rlit "Texas", rlit "Florida",
                rlit "British Virgin Islands", rlit "Cayman"]] ]

/-- `([A-Z][a-z]+\s+(?:[A-Z]\.?\s+)?[A-Z][a-z]+)`, the individual capture. -/
def individualCore : Regex :=
  .group (rcat [rcls [.rng 'A' 'Z'], rplus (rcls [.rng 'a' 'z']), rplus rs,
                ropt (rcat [rcls [.rng 'A' 'Z'], ropt (rlit "."), rplus rs]),
                rcls [.rng 'A' 'Z'], rplus (rcls [.rng 'a' 'z'])])

/-- `"defendant_individual"` patterns. -/
def defendantIndividualPatterns : List Regex :=
  [ -- r"Defendant[s]?[:\s]+([A-Z][a-z]+\s+(?:[A-Z]\.?\s+)?[A-Z][a-z]+)"
    rcat [rlit "Defendant", ropt (rcls [.one 's']), rplus clsColonSpace, individualCore],
    -- r"([A-Z][a-z]+\s+(?:[A-Z]\.?\s+)?[A-Z][a-z]+)[,\s]+(?:an individual|individually)"
    rcat [individualCore, rplus clsCommaSpace,
          ralt [rlit "an individual", rlit "individually"]] ]

/-- `"cik_number"` patterns. -/
def cikNumberPatterns : List Regex :=
  [ -- r"CIK[:\s#]*(\d{7,10})"
    rcat [rlit "CIK", rstar clsColonSpaceHash, .group (rrange 7 10 rd)],
    -- r"Central Index Key[:\s]*(\d{7,10})"
    rcat [rlit "Central Index Key", rstar clsColonSpace, .group (rrange 7 10 rd)] ]

/-- `(\d{2}-\d{7})`. -/
def einCore : Regex := .group (rcat [rrep 2 rd, rlit "-", rrep 7 rd])

/-- `"ein_number"` patterns. -/
def einNumberPatterns : List Regex :=
  [ -- r"EIN[:\s#]*(\d{2}-\d{7})"
    rcat [rlit "EIN", rstar clsColonSpaceHash, einCore],
    -- r"Employer Identification Number[:\s]*(\d{2}-\d{7})"
    rcat [rlit "Employer Identification Number", rstar clsColonSpace, einCore] ]

/-- `"crd_number"` patterns. -/
def crdNumberPatterns : List Regex :=
  [ -- r"CRD[:\s#]*(\d+)"
    rcat [rlit "CRD", rstar clsColonSpaceHash, .group (rplus rd)],
    -- r"Central Registration Depository[:\s]*(\d+)"
    rcat [rlit "Central Registration Depository", rstar clsColonSpace, .group (rplus rd)] ]

/-- `(\d+-\d+)`. -/
def secFileCore : Regex := .group (rcat [rplus rd, rlit "-", rplus rd])

/-- `"sec_file_number"` patterns. -/
def secFileNumberPatterns : List Regex :=
  [ -- r"SEC File No\.?[:\s]*(\d+-\d+)"
    rcat [rlit "SEC File No", ropt (rlit "."), rstar clsColonSpace, secFileCore],
    -- r"File Number[:\s]*(\d+-\d+)"
    rcat [rlit "File Number", rstar clsColonSpace, secFileCore] ]

/-- `\d{1,3}(?:,\d{3})*(?:\.\d{2})?`, the grouped digits of a dollar amount. -/
def dollarDigits : Regex :=
  rcat [rrange 1 3 rd, rstar (rcat [rlit ",", rrep 3 rd]),
        ropt (rcat [rlit ".", rrep 2 rd])]

/-- `"dollar_amount"` patterns.  Note that `(?:million|billion)` lies
outside the capturing group in both patterns, so `re.findall` returns only
the digits. -/
def dollarAmountPatterns : List Regex :=
  [ -- r"\$(\d{1,3}(?:,\d{3})*(?:\.\d{2})?)\s*(?:million|billion)?"
    rcat [rlit "$", .group dollarDigits, rstar rs,
          ropt (ralt [rlit "million", rlit "billion"])],
    -- r"(\d{1,3}(?:,\d{3})*(?:\.\d{2})?)\s*(?:million|billion)\s*dollars"
    rcat [.group dollarDigits, rstar rs, ralt [rlit "million", rlit "billion"],
          rstar rs, rlit "dollars"] ]

/-- `\d{1,3}(?:,\d{3})*`. -/
def countDigits : Regex :=
  rcat [rrange 1 3 rd, rstar (rcat [rlit ",", rrep 3 rd])]

/-- `"investor_count"` patterns. -/
def investorCountPatterns : List Regex :=
  [ -- r"(?:approximately|at least|more than|over)\s*(\d{1,3}(?:,\d{3})*)\s*(?:investors|victims|individuals)"
    rcat [ralt [rlit "approximately", rlit "at least", rlit "more than", rlit "over"],
          rstar rs, .group countDigits, rstar rs,
          ralt [rlit "investors", rlit "victims", rlit "individuals"]],
    -- r"(\d{1,3}(?:,\d{3})*)\s*(?:investors|victims|individuals)"
    rcat [.group countDigits, rstar rs,
          ralt [rlit "investors", rlit "victims", rlit "individuals"]] ]

/-- `[A-Za-z\s]`. -/
def clsLettersSpace : Regex := rcls [.rng 'A' 'Z', .rng 'a' 'z', .space]

/-- `"jurisdiction"` patterns. -/
def jurisdictionPatterns : List Regex :=
  [ -- r"(?:incorporated|organized|formed)\s+(?:in|under the laws of)\s+([A-Za-z\s]+?)(?:\.|,|;|\n)"
    rcat [ralt [rlit "incorporated", rlit "organized", rlit "formed"], rplus rs,
          ralt [rlit "in", rlit "under the laws of"], rplus rs,
          .group (rplusLazy clsLettersSpace),
          ralt [rlit ".", rlit ",", rlit ";", rlit "\n"]],
    -- r"(?:a |an )\s*([A-Za-z\s]+?)\s*(?:corporation|company|LLC|limited)"
    rcat [ralt [rlit "a ", rlit "an "], rstar rs,
          .group (rplusLazy clsLettersSpace), rstar rs,
          ralt [rlit "corporation", rlit "company", rlit "LLC", rlit "limited"]] ]

/-- `"address"` patterns. -/
def addressPatterns : List Regex :=
  [ -- r"(?:principal place of business|located|address)[:\s]+([0-9]+[^\.]+(?:Street|...)[^\.]+)"
    rcat [ralt [rlit "principal place of business", rlit "located", rlit "address"],
          rplus clsColonSpace,
          .group (rcat [rplus (rcls [.rng '0' '9']), rplus (rncls [.one '.']),
                        ralt [rlit "Street", rlit "St.", rlit "Avenue", rlit "Ave.",
                              rlit "Road", rlit "Rd.", rlit "Boulevard", rlit "Blvd.",
                              rlit "Drive", rlit "Dr."],
                        rplus (rncls [.one '.'])])] ]

/-- `"fraud_indicators"` patterns (each one is a single grouped literal;
`pump.and.dump` uses `.` wildcards). -/
def fraudIndicatorPatterns : List Regex :=
  [ .group (rlit "Ponzi scheme"),
    .group (rlit "pyramid scheme"),
    .group (rlit "securities fraud"),
    .group (rlit "investment fraud"),
    .group (rlit "wire fraud"),
    .group (rlit "mail fraud"),
    .group (rlit "money laundering"),
    .group (rlit "accounting fraud"),
    .group (rlit "insider trading"),
    .group (rlit "market manipulation"),
    .group (rcat [rlit "pump", rdot, rlit "and", rdot, rlit "dump"]),
    .group (rlit "shell company"),
    .group (rlit "unregistered securities"),
    .group (rlit "offering fraud") ]

/-- `"statutes"` patterns. -/
def statutesPatterns : List Regex :=
  [ -- r"Section\s+(\d+\([a-z]\))\s+of\s+the\s+(?:Securities\s+)?(?:Exchange\s+)?Act"
    rcat [rlit "Section", rplus rs,
          .group (rcat [rplus rd, rlit "(", rcls [.rng 'a' 'z'], rlit ")"]),
          rplus rs, rlit "of", rplus rs, rlit "the", rplus rs,
          ropt (rcat [rlit "Securities", rplus rs]),
          ropt (rcat [rlit "Exchange", rplus rs]), rlit "Act"],
    -- r"(\d+\s+U\.S\.C\.\s+§?\s*\d+)"
    .group (rcat [rplus rd, rplus rs, rlit "U.S.C.", rplus rs,
                  ropt (rlit "§"), rstar rs, rplus rd]),
    -- r"Rule\s+(\d+[a-z]?-\d+)"
    rcat [rlit "Rule", rplus rs,
          .group (rcat [rplus rd, ropt (rcls [.rng 'a' 'z']), rlit "-", rplus rd])],
    .group (rlit "Securities Act of 1933"),
    .group (rlit "Securities Exchange Act of 1934"),
    .group (rlit "Investment Advisers Act"),
    .group (rlit "Investment Company Act") ]

/-- The `PATTERNS` dictionary of `PDFExtractor`, in declaration order. -/
def PATTERNS : List (String × List Regex) :=
  [ ("case_number", caseNumberPatterns),
    ("complaint_date", complaintDatePatterns),
    ("court", courtPatterns),
    ("defendant_company", defendantCompanyPatterns),
    ("defendant_individual", defendantIndividualPatterns),
    ("cik_number", cikNumberPatterns),
    ("ein_number", einNumberPatterns),
    ("crd_number", crdNumberPatterns),
    ("sec_file_number", secFileNumberPatterns),
    ("dollar_amount", dollarAmountPatterns),
    ("investor_count", investorCountPatterns),
    ("jurisdiction", jurisdictionPatterns),
    ("address", addressPatterns),
    ("fraud_indicators", fraudIndicatorPatterns),
    ("statutes", statutesPatterns) ]

/-! ## Data model -/

/-- `ExtractedEntity` of `pdf_extractor.py`.  `identifiers` is a dict with
string keys and values, modelled as an insertion-ordered association
list. -/
structure ExtractedEntity where
  name : String
  entity_type : String                 -- "company", "individual", ...
  role : Option String := none         -- "defendant", "relief_defendant", ...
  identifiers : List (String × String) := []
  associated_companies : List String := []
  associated_individuals : List String := []
  jurisdiction : Option String := none
  address : Option String := none
  source_document : Option String := none
  source_url : Option String := none
  deriving Repr, DecidableEq

/-- `ExtractedCase` of `pdf_extractor.py`. -/
structure ExtractedCase where
  case_number : Option String := none
  case_title : Option String := none
  complaint_date : Option String := none
  court : Option String := none
  defendants : List ExtractedEntity := []
  relief_defendants : List ExtractedEntity := []
  related_entities : List ExtractedEntity := []
  fraud_types : List String := []
  alleged_amount : Option PyFloat := none
  victim_count : Option Int := none
  date_range : Option String := none
  charges : List String := []
  statutes_violated : List String := []
  source_url : Option String := none
  source_file : Option String := none
  raw_text : Option String := none
  deriving Repr, DecidableEq

/-- The fraud-case record dict built by `ExtractedCase.to_fraud_cases`
(its `identifiers` value is the entity's dict itself, not serialized). -/
structure PdfFraudCase where
  company_name : String
  case_date : String
  fraud_type : String
  penalty_amount : Option PyFloat
  jurisdiction : Option String
  source : String
  source_url : String
  description : String
  is_synthetic : Bool
  case_number : Option String
  identifiers : List (String × String)
  deriving Repr, DecidableEq

/-! ## `PDFExtractor` helper methods -/

/-- The strip-and-dedup loop of `PDFExtractor._extract_pattern`: strip
each match and keep first occurrences (`seen` is the Python set). -/
def uniqueStripped (seen : List String) : List String → List String
  | [] => []
  | m :: ms =>
    let mClean := pyStrip m
    if mClean ∈ seen then uniqueStripped seen ms
    else mClean :: uniqueStripped (mClean :: seen) ms

/-- `PDFExtractor._extract_pattern`: run every pattern of the key over the
text with `re.findall`, concatenate the matches, strip each match,
deduplicate preserving first-seen order (`uniqueStripped`), and keep only
the first match when `first_only` is set. -/
def extractPattern (text : String) (patternKey : String)
    (firstOnly : Bool := false) : List String :=
  let patterns := ((PATTERNS.find? (fun p => p.1 = patternKey)).map Prod.snd).getD []
  let found := patterns.flatMap (fun p => findAll p text)
  let unique := uniqueStripped [] found
  if firstOnly ∧ unique ≠ [] then unique.take 1 else unique

/-- `PDFExtractor._parse_dollar_amount`: strip commas and dollar signs,
parse with `float`, then multiply by 10⁹/10⁶ when the *original* string
contains "billion"/"million" (billion first).  Returns `none` both for the
empty string and when `float` raises. -/
def parseDollarAmount (amountStr : String) : Option PyFloat :=
  if amountStr = "" then none
  else
    let clean := pyStrip (pyRemoveChar '$' (pyRemoveChar ',' amountStr))
    match pyFloat clean with
    | .error _ => none
    | .ok value =>
      let lower := pyLower amountStr
      if pyContains lower "billion" then some (value.mulInt 1000000000)
      else if pyContains lower "million" then some (value.mulInt 1000000)
      else some value

/-- The `type_mapping` dict of `_classify_fraud_type`, in declaration
order. -/
def typeMapping : List (String × String) :=
  [ ("ponzi", "Ponzi Scheme"),
    ("pyramid", "Pyramid Scheme"),
    ("securities fraud", "Securities Fraud"),
    ("investment fraud", "Investment Fraud"),
    ("wire fraud", "Wire Fraud"),
    ("money laundering", "Money Laundering"),
    ("accounting fraud", "Accounting Fraud"),
    ("insider trading", "Insider Trading"),
    ("market manipulation", "Market Manipulation"),
    ("pump", "Market Manipulation"),
    ("shell company", "Shell Company Fraud"),
    ("unregistered", "Unregistered Securities"),
    ("offering fraud", "Offering Fraud") ]

/-- The loop of `_classify_fraud_type`: append each mapped type whose
keyword occurs in the indicator text, unless already present. -/
def classifyLoop : List (String × String) → List String → String → List String
  | [], acc, _ => acc
  | (kw, ft) :: rest, acc, indicatorText =>
    if pyContains indicatorText kw ∧ ft ∉ acc then
      classifyLoop rest (acc ++ [ft]) indicatorText
    else
      classifyLoop rest acc indicatorText

/-- `PDFExtractor._classify_fraud_type`. -/
def classifyFraudType (indicators : List String) : List String :=
  let indicatorText := pyLower (pyJoin " " indicators)
  let fraudTypes := classifyLoop typeMapping [] indicatorText
  if fraudTypes = [] then ["Securities Fraud"] else fraudTypes

/-- The `mapping` dict of `_normalize_jurisdiction`, in declaration
order. -/
def jurisdictionMapping : List (String × String) :=
  [ ("delaware", "us_de"),
    ("nevada", "us_nv"),
    ("wyoming", "us_wy"),
    ("california", "us_ca"),
    ("new york", "us_ny"),
    ("texas", "us_tx"),
    ("florida", "us_fl"),
    ("british virgin islands", "vg"),
    ("bvi", "vg"),
    ("cayman islands", "ky"),
    ("cayman", "ky"),
    ("panama", "pa"),
    ("singapore", "sg"),
    ("hong kong", "hk"),
    ("united kingdom", "gb"),
    ("england", "gb") ]

/-- The loop of `_normalize_jurisdiction`: return the code of the first
table key occurring in the lowered, stripped input. -/
def jurisdictionLoop (jurLower : String) : List (String × String) → Option String
  | [] => none
  | (key, code) :: rest =>
    if pyContains jurLower key then some code else jurisdictionLoop jurLower rest

/-- `PDFExtractor._normalize_jurisdiction`. -/
def normalizeJurisdiction (jur : String) : String :=
  let jurLower := pyStrip (pyLower jur)
  match jurisdictionLoop jurLower jurisdictionMapping with
  | some code => code
  | none => if jurLower.data.length > 5 then pyTake 5 jurLower else jurLower

/-! ## `datetime.strptime(s, "%B %d %Y")` and `strftime("%Y-%m-%d")`

CPython's `_strptime` compiles the format into a regex: `%B` matches a
full month name case-insensitively, a space in the format matches `\s+`,
`%d` matches `3[01]|[12]\d|0[1-9]|[1-9]`, `%Y` matches exactly four
digits, the whole input must be consumed, and the resulting calendar date
must exist (otherwise `ValueError`). -/

/-- Full English month names, in month order. -/
def monthNames : List String :=
  ["january", "february", "march", "april", "may", "june", "july",
   "august", "september", "october", "november", "december"]

/-- Match a month name case-insensitively at the front of `l`; return the
month number and the rest. -/
def matchMonth (l : List Char) : Option (Nat × List Char) :=
  (List.enumFrom 1 monthNames).firstM (fun p =>
    if p.2.data.isPrefixOf (l.map pyLowerChar) then
      some (p.1, l.drop p.2.data.length)
    else none)

/-- Leap-year rule of the Gregorian calendar. -/
def isLeap (y : Nat) : Bool := (y % 4 = 0 ∧ y % 100 ≠ 0) ∨ y % 400 = 0

/-- Days in a month. -/
def daysInMonth (y m : Nat) : Nat :=
  if m = 2 then (if isLeap y then 29 else 28)
  else if m = 4 ∨ m = 6 ∨ m = 9 ∨ m = 11 then 30
  else 31

/-- `%d`: one or two digits denoting 1–31, two-digit forms preferred
(mirrors the alternation `3[01]|[12]\d|0[1-9]|[1-9]`); both alternatives
are offered to the continuation `k`, two-digit first. -/
def matchDay (l : List Char) (k : Nat → List Char → Option (Nat × Nat × Nat)) :
    Option (Nat × Nat × Nat) :=
  match l with
  | c1 :: c2 :: rest =>
    if c1.isDigit ∧ c2.isDigit ∧ 1 ≤ digitsToNat [c1, c2] ∧ digitsToNat [c1, c2] ≤ 31 then
      match k (digitsToNat [c1, c2]) rest with
      | some r => some r
      | none => if 1 ≤ digitVal c1 ∧ digitVal c1 ≤ 9 then k (digitVal c1) (c2 :: rest) else none
    else if c1.isDigit ∧ 1 ≤ digitVal c1 ∧ digitVal c1 ≤ 9 then
      k (digitVal c1) (c2 :: rest)
    else none
  | [c1] =>
    if c1.isDigit ∧ 1 ≤ digitVal c1 ∧ digitVal c1 ≤ 9 then k (digitVal c1) [] else none
  | [] => none

/-- `datetime.strptime(s, "%B %d %Y")`, returning `(year, month, day)` or
`ValueError`. -/
def pyStrptimeBdY (s : String) : Except Unit (Nat × Nat × Nat) :=
  match matchMonth s.data with
  | none => .error ()
  | some (m, rest) =>
    let rest1 := rest.dropWhile reIsSpace
    if rest.length = rest1.length then .error () -- `\s+` needs one space
    else
      let res := matchDay rest1 (fun d rest2 =>
        let rest3 := rest2.dropWhile reIsSpace
        if rest2.length = rest3.length then none
        else
          match rest3 with
          | [y1, y2, y3, y4] =>
            if y1.isDigit ∧ y2.isDigit ∧ y3.isDigit ∧ y4.isDigit then
              some (digitsToNat [y1, y2, y3, y4], m, d)
            else none
          | _ => none)
      match res with
      | none => .error ()
      | some (y, m, d) =>
        if 1 ≤ d ∧ d ≤ daysInMonth y m then .ok (y, m, d) else .error ()

/-- Zero-padded decimal rendering. -/
def padNat (width n : Nat) : String :=
  let s := toString n
  String.mk (List.replicate (width - s.data.length) '0') ++ s

/-- `date.strftime("%Y-%m-%d")`. -/
def strftimeYmd (ymd : Nat × Nat × Nat) : String :=
  padNat 4 ymd.1 ++ "-" ++ padNat 2 ymd.2.1 ++ "-" ++ padNat 2 ymd.2.2

/-! ## `PDFExtractor.extract_case`

The pure core of `extract_case`: everything after
`text = self.extract_text(pdf_path)` (PDF download and PDF-to-text
conversion are I/O collaborators outside this core).  Each field of the
returned `ExtractedCase` is assigned exactly as in the source; the fields
are independent except `charges`, which is derived from `fraud_types`. -/

/-- The company-entity construction of the first `for` loop of
`extract_case` (the identifier lookups are loop-invariant but are kept
inside, as in the source). -/
def mkCompanyEntity (text : String) (pdfPath : String) (sourceUrl : Option String)
    (companyName : String) : ExtractedEntity :=
  let jurisdictions := extractPattern text "jurisdiction"
  let jur := match jurisdictions with
    | j :: _ => some (normalizeJurisdiction j)
    | [] => none
  let ids0 : List (String × String) := []
  let ids1 := match extractPattern text "cik_number" with
    | c :: _ => ids0 ++ [("cik", c)]
    | [] => ids0
  let ids2 := match extractPattern text "ein_number" with
    | e :: _ => ids1 ++ [("ein", e)]
    | [] => ids1
  let ids3 := match extractPattern text "sec_file_number" with
    | f :: _ => ids2 ++ [("sec_file", f)]
    | [] => ids2
  { name := pyStrip companyName
    entity_type := "company"
    role := some "defendant"
    jurisdiction := jur
    identifiers := ids3
    source_document := some pdfPath
    source_url := sourceUrl }

/-- The individual-entity construction of the second `for` loop of
`extract_case`. -/
def mkIndividualEntity (text : String) (pdfPath : String) (sourceUrl : Option String)
    (personName : String) : ExtractedEntity :=
  let ids := match extractPattern text "crd_number" with
    | c :: _ => [("crd", c)]
    | [] => []
  { name := pyStrip personName
    entity_type := "individual"
    role := some "defendant"
    identifiers := ids
    source_document := some pdfPath
    source_url := sourceUrl }

/-- The pure core of `PDFExtractor.extract_case`. -/
def extractCaseFromText (text : String) (pdfPath : String)
    (sourceUrl : Option String) : ExtractedCase :=
  let caseNums := extractPattern text "case_number" true
  let dates := extractPattern text "complaint_date" true
  let courts := extractPattern text "court" true
  let companies := extractPattern text "defendant_company"
  let individuals := extractPattern text "defendant_individual"
  let indicators := extractPattern text "fraud_indicators"
  let fraudTypes := classifyFraudType indicators
  let amounts := extractPattern text "dollar_amount"
  let victimCounts := extractPattern text "investor_count"
  { source_url := sourceUrl
    source_file := some pdfPath
    raw_text := some (pyTake 10000 text)
    case_number := caseNums.head?
    complaint_date :=
      match dates with
      | [] => none
      | d :: _ =>
        match pyStrptimeBdY (pyRemoveChar ',' d) with
        | .ok ymd => some (strftimeYmd ymd)
        | .error _ => some d
    court := courts.head?.map pyStrip
    defendants :=
      (companies.take 10).map (mkCompanyEntity text pdfPath sourceUrl) ++
      (individuals.take 10).map (mkIndividualEntity text pdfPath sourceUrl)
    fraud_types := fraudTypes
    alleged_amount :=
      match amounts with
      | [] => none
      | _ :: _ =>
        let parsedAmounts := amounts.map parseDollarAmount
        let validAmounts := (parsedAmounts.filterMap id).filter
          (fun a => PyFloat.blt (PyFloat.ofNat 10000) a)
        match validAmounts with
        | [] => none
        | v :: vs => some (vs.foldl PyFloat.pyMax v)
    victim_count :=
      match victimCounts with
      | [] => none
      | v :: _ =>
        match pyInt (pyRemoveChar ',' v) with
        | .ok n => some n
        | .error _ => none
    statutes_violated := extractPattern text "statutes"
    charges := fraudTypes.map (fun ft => "Violation: " ++ ft) }

/-! ## Record builders -/

/-- Python's `a or b` for an optional string: the right operand is used
when the left is `None` *or* the empty string (both falsy). -/
def pyOrStr (a : Option String) (b : String) : String :=
  match a with
  | some s => if s = "" then b else s
  | none => b

/-- `str(x)` for an optional string, as produced by an f-string: `None`
renders as `"None"`. -/
def pyStr (o : Option String) : String :=
  match o with
  | some s => s
  | none => "None"

/-- The dict literal appended by `ExtractedCase.to_fraud_cases` for one
company defendant (factored out of the loop for reuse in statements). -/
def pdfCaseRecordOf (c : ExtractedCase) (today : String)
    (defendant : ExtractedEntity) : PdfFraudCase :=
  { company_name := defendant.name
    case_date := pyOrStr c.complaint_date today
    fraud_type := match c.fraud_types with
      | ft :: _ => ft
      | [] => "Securities Fraud"
    penalty_amount := c.alleged_amount
    jurisdiction := defendant.jurisdiction
    source := "SEC Complaint"
    source_url := (c.source_url).getD ""
    description := "Case " ++ pyStr c.case_number ++ ": " ++
      (if c.charges ≠ [] then pyJoin ", " (c.charges.take 2)
       else "Securities violations")
    is_synthetic := false
    case_number := c.case_number
    identifiers := defendant.identifiers }

/-- `ExtractedCase.to_fraud_cases`, with `datetime.now().strftime("%Y-%m-%d")`
made explicit as the `today` parameter.  The loop runs over
`self.defendants` only and keeps entities whose `entity_type` is
`"company"`; the `relief_defendants` and `related_entities` lists are
never consulted. -/
def ExtractedCase.toFraudCases (c : ExtractedCase) (today : String) :
    List PdfFraudCase :=
  c.defendants.foldl
    (fun cases defendant =>
      if defendant.entity_type = "company" then
        cases ++ [pdfCaseRecordOf c today defendant]
      else cases)
    []

/-! ## `combine_all_sources.py` -/

/-- The fraud-case record dict of `combine_all_sources.py` (the output
schema: `identifiers` is a JSON string or `None`). -/
structure FraudCaseRecord where
  company_name : String
  case_date : String := ""
  fraud_type : String := ""
  penalty_amount : Option PyFloat := none
  jurisdiction : String := ""
  source : String := ""
  source_url : String := ""
  description : String := ""
  is_synthetic : Bool := false
  case_number : Option String := none
  identifiers : Option String := none
  deriving Repr, DecidableEq

/-- `json.dumps` on a string-to-string dict with default separators.  The
identifier keys and values produced by this pipeline (digit strings,
`NN-NNNNNNN` and the like) contain no characters needing JSON escapes. -/
def pyJsonDumps (l : List (String × String)) : String :=
  "\x7b" ++ pyJoin ", " (l.map (fun p => "\"" ++ p.1 ++ "\": \"" ++ p.2 ++ "\"")) ++ "\x7d"

/-- The record construction of `extract_from_pdfs` (lines 46–68 of
`combine_all_sources.py`), with `datetime.now().strftime('%Y-%m-%d')`
made explicit as `today`. -/
def combineRecordOf (extracted : ExtractedCase) (today : String)
    (defendant : ExtractedEntity) : FraudCaseRecord :=
  { company_name := defendant.name
    case_date := pyOrStr extracted.complaint_date today
    fraud_type := match extracted.fraud_types with
      | ft :: _ => ft
      | [] => "SEC Enforcement"
    penalty_amount := extracted.alleged_amount
    jurisdiction := (defendant.jurisdiction).getD ""
    source := "SEC Complaint PDF"
    source_url := (extracted.source_url).getD ""
    description := "SEC complaint case " ++ (extracted.case_number).getD ""
    is_synthetic := false
    case_number := extracted.case_number
    identifiers :=
      if defendant.identifiers ≠ [] then some (pyJsonDumps defendant.identifiers)
      else none }

/-- The loop of `extract_from_pdfs` over one extracted case. -/
def buildPdfRecords (extracted : ExtractedCase) (today : String) :
    List FraudCaseRecord :=
  extracted.defendants.foldl
    (fun cases defendant =>
      if defendant.entity_type = "company" then
        cases ++ [combineRecordOf extracted today defendant]
      else cases)
    []

/-- The deduplication key: `case['company_name'].lower().strip()`. -/
def normKey (c : FraudCaseRecord) : String := pyStrip (pyLower c.company_name)

/-- The loop of `deduplicate_cases`, with the Python `seen` set modelled
as the list of keys added so far. -/
def dedupLoop (seen : List String) : List FraudCaseRecord → List FraudCaseRecord
  | [] => []
  | c :: cs =>
    if normKey c ∈ seen then dedupLoop seen cs
    else c :: dedupLoop (normKey c :: seen) cs

/-- `deduplicate_cases` of `combine_all_sources.py`. -/
def deduplicateCases (cases : List FraudCaseRecord) : List FraudCaseRecord :=
  dedupLoop [] cases

/-! ## Spec-side definitions (refinement targets) and concrete examples -/

/-- The value of the `seen` set after processing a list of records. -/
def seenAfter : List FraudCaseRecord → List String → List String
  | [], seen => seen
  | c :: cs, seen =>
    seenAfter cs (if normKey c ∈ seen then seen else normKey c :: seen)

/-- Keep the first occurrence of every string (`seen` accumulates). -/
def dedupFirstFrom (seen : List String) : List String → List String
  | [] => []
  | v :: vs =>
    if v ∈ seen then dedupFirstFrom seen vs
    else v :: dedupFirstFrom (v :: seen) vs

/-- Spec-side classifier, following the claim's words: the taxonomy values
of all keyword-table entries whose keyword is a substring of the joined
lowercased indicator text, in the table's declaration order without
duplicates; `["Securities Fraud"]` when nothing matches. -/
def classifySpec (indicators : List String) : List String :=
  let indicatorText := pyLower (pyJoin " " indicators)
  let matched := dedupFirstFrom []
    ((typeMapping.filter (fun p => pyContains indicatorText p.1)).map Prod.snd)
  if matched = [] then ["Securities Fraud"] else matched

/-- Claim-literal normalizer for C8's fallback clause: the first five
characters of the *lowercased input* (not of the lowercased **trimmed**
input, which is what the source uses). -/
def claimNormalizeJurisdiction (jur : String) : String :=
  let low := pyLower jur
  match jurisdictionLoop low jurisdictionMapping with
  | some code => code
  | none => if low.data.length > 5 then pyTake 5 low else low

/-- Amended spec-side normalizer: first matching table entry's code, else
the first five characters of the lowercased, trimmed input. -/
def normalizeJurisdictionSpec (jur : String) : String :=
  let low := pyStrip (pyLower jur)
  match jurisdictionMapping.find? (fun p => pyContains low p.1) with
  | some p => p.2
  | none => pyTake 5 low

/-- Source A's record of the spec's end-to-end dedup scenario (fields the
scenario leaves unspecified take the schema defaults). -/
def recA : FraudCaseRecord :=
  { company_name := "Acme Capital LLC", case_date := "2024-01-01",
    fraud_type := "Ponzi Scheme" }

/-- Source B's record of the spec's end-to-end dedup scenario. -/
def recB : FraudCaseRecord :=
  { company_name := "acme capital llc ", case_date := "2024-06-01",
    fraud_type := "Securities Fraud" }

/-- A document text containing both `$50,000` and `$4 million`. -/
def c3Document : String := "Investors lost $50,000 and $4 million in total."

/-- A company-type entity in the `relief_defendant` role. -/
def reliefCompanyEntity : ExtractedEntity :=
  { name := "Frozen Assets Ltd.", entity_type := "company",
    role := some "relief_defendant" }

/-- An extracted case whose only entity is a company relief defendant. -/
def reliefOnlyCase : ExtractedCase :=
  { case_number := some "1:25-cv-00001", complaint_date := some "2025-01-01",
    relief_defendants := [reliefCompanyEntity] }

/-- An extracted case with a company defendant and no complaint date. -/
def undatedCase : ExtractedCase :=
  { complaint_date := none,
    defendants := [{ name := "Clockwork Ltd.", entity_type := "company" }] }

/-- An extracted case with a company defendant and a complaint date. -/
def datedCase : ExtractedCase :=
  { complaint_date := some "2024-01-01",
    defendants := [{ name := "Clockwork Ltd.", entity_type := "company" }] }

/-! ## Lemmas about `deduplicate_cases` -/

theorem seenAfter_mono {a : String} (xs : List FraudCaseRecord) (seen : List String)
    (h : a ∈ seen) : a ∈ seenAfter xs seen := by
  induction xs generalizing seen with
  | nil => exact h
  | cons c cs ih =>
    simp only [seenAfter]
    split
    · exact ih seen h
    · exact ih _ (List.mem_cons_of_mem _ h)

theorem normKey_mem_seenAfter {x : FraudCaseRecord} (xs : List FraudCaseRecord)
    (seen : List String) (h : x ∈ xs) : normKey x ∈ seenAfter xs seen := by
  induction xs generalizing seen with
  | nil => cases h
  | cons c cs ih =>
    rcases List.mem_cons.mp h with rfl | hmem
    · simp only [seenAfter]
      split
      · exact seenAfter_mono cs seen (by assumption)
      · exact seenAfter_mono cs _ (List.mem_cons_self _ _)
    · simp only [seenAfter]
      exact ih _ hmem

theorem dedupLoop_append (xs ys : List FraudCaseRecord) (seen : List String) :
    dedupLoop seen (xs ++ ys) = dedupLoop seen xs ++ dedupLoop (seenAfter xs seen) ys := by
  induction xs generalizing seen with
  | nil => simp [dedupLoop, seenAfter]
  | cons c cs ih =>
    simp only [List.cons_append, dedupLoop, seenAfter]
    split
    · exact ih seen
    · simp [ih]

theorem dedupLoop_eq_nil (xs : List FraudCaseRecord) (seen : List String)
    (h : ∀ x ∈ xs, normKey x ∈ seen) : dedupLoop seen xs = [] := by
  induction xs with
  | nil => rfl
  | cons c cs ih =>
    simp only [dedupLoop, if_pos (h c (List.mem_cons_self _ _))]
    exact ih (fun x hx => h x (List.mem_cons_of_mem _ hx))

theorem mem_dedupLoop_not_seen {x : FraudCaseRecord} {xs : List FraudCaseRecord}
    {seen : List String} (h : x ∈ dedupLoop seen xs) : normKey x ∉ seen := by
  induction xs generalizing seen with
  | nil => cases h
  | cons c cs ih =>
    simp only [dedupLoop] at h
    split at h
    · exact ih h
    · rcases List.mem_cons.mp h with rfl | hmem
      · assumption
      · intro hx
        exact ih hmem (List.mem_cons_of_mem _ hx)

theorem dedupLoop_sublist (xs : List FraudCaseRecord) (seen : List String) :
    (dedupLoop seen xs).Sublist xs := by
  induction xs generalizing seen with
  | nil => simp [dedupLoop]
  | cons c cs ih =>
    simp only [dedupLoop]
    split
    · exact (ih seen).cons c
    · exact (ih _).cons₂ c

theorem dedupLoop_pairwise (xs : List FraudCaseRecord) (seen : List String) :
    (dedupLoop seen xs).Pairwise (fun a b => normKey a ≠ normKey b) := by
  induction xs generalizing seen with
  | nil => exact List.Pairwise.nil
  | cons c cs ih =>
    simp only [dedupLoop]
    split
    · exact ih seen
    · refine List.Pairwise.cons (fun b hb => ?_) (ih _)
      intro hkey
      exact mem_dedupLoop_not_seen hb (hkey ▸ List.mem_cons_self _ _)

theorem dedupLoop_fixed (xs : List FraudCaseRecord) (seen : List String)
    (hpw : xs.Pairwise (fun a b => normKey a ≠ normKey b))
    (hns : ∀ x ∈ xs, normKey x ∉ seen) : dedupLoop seen xs = xs := by
  induction xs generalizing seen with
  | nil => rfl
  | cons c cs ih =>
    simp only [dedupLoop, if_neg (hns c (List.mem_cons_self _ _))]
    congr 1
    refine ih _ (List.Pairwise.of_cons hpw) (fun x hx => ?_)
    intro hmem
    rcases List.mem_cons.mp hmem with heq | hseen
    · exact (List.pairwise_cons.mp hpw).1 x hx heq.symm
    · exact hns x (List.mem_cons_of_mem _ hx) hseen

theorem dedupLoop_filter (xs : List FraudCaseRecord) (seen : List String) (k : String) :
    (dedupLoop seen xs).filter (fun c => normKey c == k) =
      if k ∈ seen then [] else (xs.filter (fun c => normKey c == k)).take 1 := by
  induction xs generalizing seen with
  | nil => simp [dedupLoop]
  | cons c cs ih =>
    by_cases hseen : normKey c ∈ seen
    · rw [show dedupLoop seen (c :: cs) = dedupLoop seen cs by
        simp [dedupLoop, hseen]]
      rw [ih]
      by_cases hk : k ∈ seen
      · rw [if_pos hk, if_pos hk]
      · have hck : (normKey c == k) = false := by
          simp only [beq_eq_false_iff_ne, ne_eq]
          rintro rfl
          exact hk hseen
        rw [if_neg hk, if_neg hk, List.filter_cons]
        simp [hck]
    · rw [show dedupLoop seen (c :: cs) = c :: dedupLoop (normKey c :: seen) cs by
        simp [dedupLoop, hseen]]
      by_cases hck : normKey c = k
      · subst hck
        rw [if_neg hseen, List.filter_cons, List.filter_cons]
        simp only [beq_self_eq_true, if_true]
        rw [ih, if_pos (List.mem_cons_self _ _)]
        simp
      · have hbeq : (normKey c == k) = false := by
          simp [beq_eq_false_iff_ne, hck]
        have hmem : (k ∈ normKey c :: seen) ↔ k ∈ seen :=
          ⟨fun h => (List.mem_cons.mp h).elim (fun he => absurd he.symm hck) id,
           List.mem_cons_of_mem _⟩
        rw [List.filter_cons]
        simp only [hbeq, Bool.false_eq_true, if_false]
        rw [ih, List.filter_cons]
        simp only [hbeq, Bool.false_eq_true, if_false]
        by_cases hk : k ∈ seen
        · rw [if_pos (hmem.mpr hk), if_pos hk]
        · rw [if_neg (fun h => hk (hmem.mp h)), if_neg hk]

/-! ## Lemmas for the classifier -/

theorem dedupFirstFrom_congr (l : List String) (s1 s2 : List String)
    (h : ∀ v, v ∈ s1 ↔ v ∈ s2) : dedupFirstFrom s1 l = dedupFirstFrom s2 l := by
  induction l generalizing s1 s2 with
  | nil => rfl
  | cons v vs ih =>
    simp only [dedupFirstFrom]
    by_cases hv : v ∈ s1
    · rw [if_pos hv, if_pos ((h v).mp hv)]
      exact ih s1 s2 h
    · rw [if_neg hv, if_neg (fun hx => hv ((h v).mpr hx))]
      congr 1
      refine ih _ _ (fun w => ?_)
      simp [List.mem_cons, h w]

theorem classifyLoop_eq (m : List (String × String)) (acc : List String)
    (indicatorText : String) :
    classifyLoop m acc indicatorText =
      acc ++ dedupFirstFrom acc
        ((m.filter (fun p => pyContains indicatorText p.1)).map Prod.snd) := by
  induction m generalizing acc with
  | nil => simp [classifyLoop, dedupFirstFrom]
  | cons p rest ih =>
    obtain ⟨kw, ft⟩ := p
    simp only [classifyLoop]
    by_cases hkw : pyContains indicatorText kw = true
    · rw [List.filter_cons]
      simp only [hkw, if_true, List.map_cons, dedupFirstFrom]
      by_cases hft : ft ∈ acc
      · rw [if_neg (by simp [hft]), if_pos hft]
        exact ih acc
      · rw [if_pos (by simp [hkw, hft]), if_neg hft, ih]
        rw [dedupFirstFrom_congr _ (acc ++ [ft]) (ft :: acc) (fun v => by
          simp [List.mem_append, List.mem_cons, or_comm])]
        simp
    · rw [List.filter_cons]
      simp only [hkw, Bool.false_eq_true, if_false]
      rw [if_neg (by simp [hkw]), ih]

/-! ## Lemmas for jurisdiction normalization -/

theorem jurisdictionLoop_eq_find (low : String) (m : List (String × String)) :
    jurisdictionLoop low m = (m.find? (fun p => pyContains low p.1)).map Prod.snd := by
  induction m with
  | nil => rfl
  | cons p rest ih =>
    simp only [jurisdictionLoop, List.find?]
    by_cases h : pyContains low p.1 = true
    · obtain ⟨k, c⟩ := p
      simp_all
    · obtain ⟨k, c⟩ := p
      simp only at h
      simp [h, ih]

theorem normalizeJurisdiction_eq_spec (jur : String) :
    normalizeJurisdiction jur = normalizeJurisdictionSpec jur := by
  rcases hf : (jurisdictionMapping.find? fun p =>
      pyContains (pyStrip (pyLower jur)) p.1) with _ | p
  · simp only [normalizeJurisdiction, normalizeJurisdictionSpec,
      jurisdictionLoop_eq_find, hf, Option.map_none']
    split
    · rfl
    · rename_i hlen
      unfold pyTake
      rw [List.take_of_length_le (by omega)]
  · simp [normalizeJurisdiction, normalizeJurisdictionSpec,
      jurisdictionLoop_eq_find, hf]

/-! ## Lemmas for the record builders -/

theorem foldl_company_filter {β : Type} (f : ExtractedEntity → β)
    (l : List ExtractedEntity) (acc : List β) :
    l.foldl (fun cases d => if d.entity_type = "company" then cases ++ [f d] else cases) acc
      = acc ++ (l.filter (fun e => e.entity_type == "company")).map f := by
  induction l generalizing acc with
  | nil => simp
  | cons d ds ih =>
    simp only [List.foldl_cons, List.filter_cons]
    by_cases hd : d.entity_type = "company"
    · rw [if_pos hd, ih, if_pos (by simp [hd])]
      simp
    · rw [if_neg hd, ih, if_neg (by simp [hd])]

theorem toFraudCases_eq_filter_map (c : ExtractedCase) (today : String) :
    c.toFraudCases today =
      (c.defendants.filter (fun e => e.entity_type == "company")).map
        (pdfCaseRecordOf c today) := by
  unfold ExtractedCase.toFraudCases
  simpa using foldl_company_filter (pdfCaseRecordOf c today) c.defendants []

theorem buildPdfRecords_eq_filter_map (c : ExtractedCase) (today : String) :
    buildPdfRecords c today =
      (c.defendants.filter (fun e => e.entity_type == "company")).map
        (combineRecordOf c today) := by
  unfold buildPdfRecords
  simpa using foldl_company_filter (combineRecordOf c today) c.defendants []

theorem pyOrStr_of_some {d : String} (t : String) (hne : d ≠ "") :
    pyOrStr (some d) t = d := by
  simp [pyOrStr, hne]

/-! ## Lemmas connecting `PyFloat` to its rational value -/

theorem PyFloat.blt_iff_toQ_lt (a b : PyFloat) : a.blt b = true ↔ a.toQ < b.toQ := by
  unfold PyFloat.blt PyFloat.toQ
  rw [div_lt_div_iff₀ (by positivity) (by positivity), decide_eq_true_eq]
  constructor
  · intro h
    calc (a.num : ℚ) * 10 ^ b.scale
        = ((a.num * 10 ^ b.scale : ℤ) : ℚ) := by push_cast; ring
      _ < ((b.num * 10 ^ a.scale : ℤ) : ℚ) := by exact_mod_cast h
      _ = (b.num : ℚ) * 10 ^ a.scale := by push_cast; ring
  · intro h
    have h2 : ((a.num * 10 ^ b.scale : ℤ) : ℚ) < ((b.num * 10 ^ a.scale : ℤ) : ℚ) := by
      push_cast
      push_cast at h
      linarith
    exact_mod_cast h2

theorem PyFloat.pyMax_toQ (a b : PyFloat) :
    (a.pyMax b).toQ = max a.toQ b.toQ := by
  unfold PyFloat.pyMax
  by_cases h : a.blt b = true
  · rw [if_pos h]
    exact (max_eq_right (le_of_lt ((PyFloat.blt_iff_toQ_lt a b).mp h))).symm
  · rw [if_neg h]
    have h2 : ¬ a.toQ < b.toQ := fun hlt => h ((PyFloat.blt_iff_toQ_lt a b).mpr hlt)
    exact (max_eq_left (le_of_not_lt h2)).symm

/-! ## Claim theorems -/

/-- C1.  Merging record batches dedups by the normalized (trimmed,
case-folded) company name: the result has pairwise-distinct normalized
names, for every key exactly the first record bearing it survives, in
input order, and later records with the same key are discarded whole.
In particular merging A's `Acme Capital LLC` record and then B's
`acme capital llc ` record keeps exactly A's record. -/
theorem merge_dedups_by_normalized_name :
    (∀ cases : List FraudCaseRecord,
      (deduplicateCases cases).Sublist cases ∧
      (deduplicateCases cases).Pairwise (fun a b => normKey a ≠ normKey b) ∧
      ∀ k : String,
        (deduplicateCases cases).filter (fun c => normKey c == k) =
          (cases.filter (fun c => normKey c == k)).take 1) ∧
    normKey recA = "acme capital llc" ∧
    normKey recB = "acme capital llc" ∧
    deduplicateCases [recA, recB] = [recA] := by
  refine ⟨fun cases =>
    ⟨dedupLoop_sublist cases [], dedupLoop_pairwise cases [], fun k => ?_⟩, ?_, ?_, ?_⟩
  · simpa [deduplicateCases] using dedupLoop_filter cases [] k
  · decide
  · decide
  · decide

/-- C9.  Deduplication is idempotent: merging a batch twice into a fresh
dataset equals merging it once, and re-deduplicating a deduplicated
dataset changes nothing. -/
theorem dedup_idempotent (B : List FraudCaseRecord) :
    deduplicateCases (B ++ B) = deduplicateCases B ∧
    deduplicateCases (deduplicateCases B) = deduplicateCases B := by
  constructor
  · unfold deduplicateCases
    rw [dedupLoop_append,
      dedupLoop_eq_nil B _ (fun x hx => normKey_mem_seenAfter B [] hx)]
    simp
  · unfold deduplicateCases
    exact dedupLoop_fixed _ [] (dedupLoop_pairwise B [])
      (fun x _ => List.not_mem_nil _)

/-- C7.  Classification returns the taxonomy values of the keyword-table
entries whose keyword occurs in the joined lowercased indicator text, in
table order without duplicates, defaulting to `["Securities Fraud"]`, so
the result is never empty; `["ponzi scheme"]` classifies as
`["Ponzi Scheme"]` and `[]` as `["Securities Fraud"]`. -/
theorem classifier_matches_table_or_default (indicators : List String) :
    classifyFraudType indicators = classifySpec indicators ∧
    classifyFraudType indicators ≠ [] ∧
    classifyFraudType ["ponzi scheme"] = ["Ponzi Scheme"] ∧
    classifyFraudType [] = ["Securities Fraud"] := by
  refine ⟨?_, ?_, by decide, by decide⟩
  · simp only [classifyFraudType, classifySpec, classifyLoop_eq, List.nil_append]
  · simp only [classifyFraudType]
    split
    · simp
    · assumption

/-- C8 (counterexample).  The claim's fallback clause — "the first 5
lowercase characters of the input" — fails for inputs with leading
whitespace: the source lowercases **and strips** before slicing, so
`" Ruritania"` normalizes to `"rurit"`, not to `" ruri"`. -/
theorem jurisdiction_fallback_counterexample :
    normalizeJurisdiction " Ruritania" = "rurit" ∧
    claimNormalizeJurisdiction " Ruritania" = " ruri" ∧
    normalizeJurisdiction " Ruritania" ≠ claimNormalizeJurisdiction " Ruritania" := by
  refine ⟨by decide, by decide, by decide⟩

/-- C8 (amended).  Jurisdiction normalization always returns a string: the
code of the first table entry whose key occurs in the lowercased trimmed
input, else the first five characters of the lowercased **trimmed** input
(the whole of it when not longer than five); `"British Virgin Islands"`
gives `"vg"`, `"Cayman Islands"` gives `"ky"`, `"Ruritania"` gives
`"rurit"`. -/
theorem jurisdiction_normalization_amended (jur : String) :
    normalizeJurisdiction jur = normalizeJurisdictionSpec jur ∧
    normalizeJurisdiction "British Virgin Islands" = "vg" ∧
    normalizeJurisdiction "Cayman Islands" = "ky" ∧
    normalizeJurisdiction "Ruritania" = "rurit" :=
  ⟨normalizeJurisdiction_eq_spec jur, by decide, by decide, by decide⟩

/-- C2 (code bug).  Contrary to the spec, `_parse_dollar_amount` returns
`None` on `"$4.5 million"`: after removing `,` and `$` the string
`"4.5 million"` still holds the magnitude word, `float` raises, and the
handler returns `None` — the million/billion multiplier branch sits after
the `float` call and can never fire.  The other three spec examples hold. -/
theorem amount_parser_divergence :
    parseDollarAmount "$4.5 million" = none ∧
    (parseDollarAmount "$1,700,000,000").map PyFloat.toQ = some 1700000000 ∧
    (parseDollarAmount "$50,000").map PyFloat.toQ = some 50000 ∧
    parseDollarAmount "not a number" = none := by
  refine ⟨by decide, ?_, ?_, by decide⟩
  · rw [show parseDollarAmount "$1,700,000,000" = some ⟨1700000000, 0⟩ by decide]
    norm_num [PyFloat.toQ]
  · rw [show parseDollarAmount "$50,000" = some ⟨50000, 0⟩ by decide]
    norm_num [PyFloat.toQ]

/-- C3 (code bug).  In a document containing both `$50,000` and
`$4 million` the extracted alleged amount is `50000.0`, not the
`4000000.0` the spec promises: the capturing group of the dollar-amount
patterns excludes the magnitude word, so `"$4 million"` contributes the
bare string `"4"`, parses to `4.0`, and is discarded by the `> 10000`
noise threshold.  The general max-over-threshold rule itself is what the
code implements — the per-match parse is where it diverges. -/
theorem max_amount_divergence :
    extractPattern c3Document "dollar_amount" = ["50,000", "4"] ∧
    ((extractCaseFromText c3Document "complaint.pdf" none).alleged_amount).map
      PyFloat.toQ = some 50000 ∧
    (some (50000 : ℚ) : Option ℚ) ≠ some 4000000 := by
  refine ⟨by decide, ?_, by norm_num⟩
  rw [show (extractCaseFromText c3Document "complaint.pdf" none).alleged_amount
    = some ⟨50000, 0⟩ by decide]
  norm_num [PyFloat.toQ]

/-- C4 (counterexample).  A company-type entity in the
`relief_defendants` list yields **no** fraud-case record at all — not a
record with a `None` penalty as the claim states: `to_fraud_cases`
iterates only over `self.defendants`. -/
theorem relief_defendant_yields_no_record :
    reliefOnlyCase.relief_defendants.length = 1 ∧
    reliefOnlyCase.relief_defendants.map ExtractedEntity.entity_type = ["company"] ∧
    ExtractedCase.toFraudCases reliefOnlyCase "2025-06-01" = [] := by
  decide

/-- C4 (amended).  Converting an extracted case produces exactly one
record per company-type entity **in the `defendants` list** (the `role`
field is never consulted; `relief_defendants` and `related_entities`
yield nothing), both in `to_fraud_cases` and in the parallel builder of
`extract_from_pdfs`; every emitted record carries the case-level alleged
amount as its penalty, and zero company entities yield an empty list. -/
theorem to_fraud_cases_company_defendants_only (c : ExtractedCase) (today : String) :
    c.toFraudCases today =
      (c.defendants.filter (fun e => e.entity_type == "company")).map
        (pdfCaseRecordOf c today) ∧
    (c.toFraudCases today).all
      (fun r => r.penalty_amount == c.alleged_amount) = true ∧
    buildPdfRecords c today =
      (c.defendants.filter (fun e => e.entity_type == "company")).map
        (combineRecordOf c today) ∧
    (buildPdfRecords c today).all
      (fun r => r.penalty_amount == c.alleged_amount) = true := by
  refine ⟨toFraudCases_eq_filter_map c today, ?_,
    buildPdfRecords_eq_filter_map c today, ?_⟩
  · rw [toFraudCases_eq_filter_map]
    simp only [List.all_eq_true, List.mem_map]
    rintro r ⟨e, he, rfl⟩
    simp [pdfCaseRecordOf]
  · rw [buildPdfRecords_eq_filter_map]
    simp only [List.all_eq_true, List.mem_map]
    rintro r ⟨e, he, rfl⟩
    simp [combineRecordOf]

/-- C5.  Pattern extraction is total (every fallible primitive is wrapped
and handled) and leaves each optional field unset when its pattern list
produces no match: no sentinel or default is substituted for
`case_number`, `complaint_date`, `court`, `alleged_amount`,
`victim_count`, `statutes_violated`, or the entity list. -/
theorem extraction_leaves_unmatched_fields_unset (text pdfPath : String)
    (url : Option String) :
    ((extractPattern text "case_number" true).isEmpty = true →
      (extractCaseFromText text pdfPath url).case_number = none) ∧
    ((extractPattern text "complaint_date" true).isEmpty = true →
      (extractCaseFromText text pdfPath url).complaint_date = none) ∧
    ((extractPattern text "court" true).isEmpty = true →
      (extractCaseFromText text pdfPath url).court = none) ∧
    ((extractPattern text "dollar_amount").isEmpty = true →
      (extractCaseFromText text pdfPath url).alleged_amount = none) ∧
    ((extractPattern text "investor_count").isEmpty = true →
      (extractCaseFromText text pdfPath url).victim_count = none) ∧
    ((extractPattern text "statutes").isEmpty = true →
      (extractCaseFromText text pdfPath url).statutes_violated = []) ∧
    ((extractPattern text "defendant_company").isEmpty = true →
      (extractPattern text "defendant_individual").isEmpty = true →
      (extractCaseFromText text pdfPath url).defendants = []) := by
  refine ⟨?_, ?_, ?_, ?_, ?_, ?_, ?_⟩
  all_goals intro h
  case _ => rw [List.isEmpty_iff] at h; simp [extractCaseFromText, h]
  case _ => rw [List.isEmpty_iff] at h; simp [extractCaseFromText, h]
  case _ => rw [List.isEmpty_iff] at h; simp [extractCaseFromText, h]
  case _ => rw [List.isEmpty_iff] at h; simp [extractCaseFromText, h]
  case _ => rw [List.isEmpty_iff] at h; simp [extractCaseFromText, h]
  case _ => rw [List.isEmpty_iff] at h; simp [extractCaseFromText, h]
  case _ =>
    intro h2
    rw [List.isEmpty_iff] at h h2
    simp [extractCaseFromText, h, h2]

/-- C5 witness: the empty document leaves every optional field unset. -/
theorem extraction_unset_fields_witness :
    (extractCaseFromText "" "empty.pdf" none).case_number = none ∧
    (extractCaseFromText "" "empty.pdf" none).complaint_date = none ∧
    (extractCaseFromText "" "empty.pdf" none).court = none ∧
    (extractCaseFromText "" "empty.pdf" none).alleged_amount = none ∧
    (extractCaseFromText "" "empty.pdf" none).victim_count = none ∧
    (extractCaseFromText "" "empty.pdf" none).statutes_violated = [] ∧
    (extractCaseFromText "" "empty.pdf" none).defendants = [] := by
  have h := extraction_leaves_unmatched_fields_unset "" "empty.pdf" none
  exact ⟨h.1 (by decide), h.2.1 (by decide), h.2.2.1 (by decide),
    h.2.2.2.1 (by decide), h.2.2.2.2.1 (by decide), h.2.2.2.2.2.1 (by decide),
    h.2.2.2.2.2.2 (by decide) (by decide)⟩

/-- C6 (counterexample).  The pipeline's output is **not** a function of
the inputs alone: when an extracted case has no complaint date, the
emitted `case_date` is the current date (`datetime.now()`), so the same
input produces different records on different days. -/
theorem pipeline_output_depends_on_clock :
    ExtractedCase.toFraudCases undatedCase "2024-01-01" ≠
      ExtractedCase.toFraudCases undatedCase "2024-01-02" := by
  decide

/-- C6 (amended).  Record building is a pure function of the extracted
case **and the current date**; whenever the case carries a non-empty
complaint date, the current date is irrelevant and the records are a
function of the inputs alone.  (Synthetic-case generation additionally
depends on the unseeded `random` state, the other non-input
dependence.) -/
theorem record_building_clock_independent_with_date (c : ExtractedCase)
    (t1 t2 d : String) (hd : c.complaint_date = some d) (hne : d ≠ "") :
    c.toFraudCases t1 = c.toFraudCases t2 ∧
    buildPdfRecords c t1 = buildPdfRecords c t2 := by
  constructor
  · rw [toFraudCases_eq_filter_map, toFraudCases_eq_filter_map]
    have hf : pdfCaseRecordOf c t1 = pdfCaseRecordOf c t2 := by
      funext e
      simp [pdfCaseRecordOf, hd, pyOrStr, hne]
    rw [hf]
  · rw [buildPdfRecords_eq_filter_map, buildPdfRecords_eq_filter_map]
    have hf : combineRecordOf c t1 = combineRecordOf c t2 := by
      funext e
      simp [combineRecordOf, hd, pyOrStr, hne]
    rw [hf]

/-- C6 witness: a dated case builds identical records on different
days. -/
theorem record_building_clock_independent_witness :
    datedCase.complaint_date = some "2024-01-01" ∧
    ("2024-01-01" : String) ≠ "" ∧
    ExtractedCase.toFraudCases datedCase "2025-05-05" =
      ExtractedCase.toFraudCases datedCase "2025-06-06" ∧
    buildPdfRecords datedCase "2025-05-05" = buildPdfRecords datedCase "2025-06-06" :=
  ⟨rfl, by decide,
   (record_building_clock_independent_with_date datedCase "2025-05-05" "2025-06-06"
     "2024-01-01" rfl (by decide)).1,
   (record_building_clock_independent_with_date datedCase "2025-05-05" "2025-06-06"
     "2024-01-01" rfl (by decide)).2⟩

/-- C10.  Per document the entity list is capped: the defendants are
exactly the first 10 deduplicated company matches and the first 10
deduplicated individual matches, so the list never exceeds 20 entries. -/
theorem extracted_defendants_capped_at_twenty (text pdfPath : String)
    (url : Option String) :
    (extractCaseFromText text pdfPath url).defendants =
      ((extractPattern text "defendant_company").take 10).map
        (mkCompanyEntity text pdfPath url) ++
      ((extractPattern text "defendant_individual").take 10).map
        (mkIndividualEntity text pdfPath url) ∧
    (extractCaseFromText text pdfPath url).defendants.length ≤ 20 := by
  refine ⟨rfl, ?_⟩
  have h : (extractCaseFromText text pdfPath url).defendants =
      ((extractPattern text "defendant_company").take 10).map
        (mkCompanyEntity text pdfPath url) ++
      ((extractPattern text "defendant_individual").take 10).map
        (mkIndividualEntity text pdfPath url) := rfl
  rw [h, List.length_append, List.length_map, List.length_map,
    List.length_take, List.length_take]
  omega

end Companies
